import Mathlib

/-!
Shallow embedding of the Order Lifecycle & Ledger state machine of the
Preloomi UAE marketplace backend (src/src/routes/transaction.py,
src/src/routes/item.py, src/src/models/{item,transaction}.py).

Monetary values are Python `Decimal`s in the source; the operations in
scope only add and multiply decimals (exact in `Decimal`), so they are
modelled as rationals (`ℚ`).  Status columns are plain strings in the
source and are modelled as `String`.  Ids (UUID strings in the source)
are modelled as `Nat`; timestamps (`datetime.utcnow()`) as a `Nat`
parameter `now` supplied to each operation.  Each Flask route commits
all its mutations in one `db.session.commit()` and rolls everything
back on any exception, so an operation is a pure function
`DBState → Except Err DBState`: an `error` result leaves the store
untouched.
-/

namespace Preloomi

/-- One row of the `items` table (src/src/models/item.py, class Item).
`views_count`, `likes_count`, `is_featured`, `created_at` and the image
relationship are never read or written by the operations in scope and are
omitted. -/
structure Item where
  id : Nat
  seller_id : Nat
  title : String
  description : String
  price : ℚ
  currency : String
  category : String
  subcategory : String
  condition : String
  brand : String
  size : String
  color : String
  material : String
  status : String
  updated_at : Nat
  deriving DecidableEq

/-- One row of the `addresses` table; only the columns consulted by
`create_order` (primary key and owner). -/
structure Address where
  id : Nat
  user_id : Nat
  deriving DecidableEq

/-- One row of the `orders` table (src/src/models/transaction.py, class Order). -/
structure Order where
  id : Nat
  buyer_id : Nat
  seller_id : Nat
  item_id : Nat
  shipping_address_id : Nat
  item_price : ℚ
  shipping_cost : ℚ
  buyer_protection_fee : ℚ
  total_price : ℚ
  currency : String
  order_status : String
  payment_status : String
  updated_at : Nat
  shipped_at : Option Nat
  delivered_at : Option Nat
  completed_at : Option Nat
  deriving DecidableEq

/-- One row of the `transactions` table (src/src/models/transaction.py,
class Transaction). -/
structure Transaction where
  order_id : Nat
  payment_gateway_id : Option String
  amount : ℚ
  currency : String
  transaction_type : String
  status : String
  payment_method : String
  deriving DecidableEq

/-- One row of the `shipments` table (src/src/models/transaction.py,
class Shipment); `tracking_number` is a nullable column with a UNIQUE
constraint. -/
structure Shipment where
  order_id : Nat
  carrier : String
  tracking_number : Option String
  shipping_cost : ℚ
  currency : String
  status : String
  label_url : Option String
  actual_delivery : Option Nat
  updated_at : Nat
  deriving DecidableEq

/-- The relational store the routes read and write. -/
structure DBState where
  items : List Item
  addresses : List Address
  orders : List Order
  transactions : List Transaction
  shipments : List Shipment
  deriving DecidableEq

/-- The distinct failure exits of the routes in scope.  `notFound` is
`get_or_404` / `first_or_404`; the named 400-responses follow; `uniqueViolation`
is the IntegrityError raised by the UNIQUE constraint on
`shipments.tracking_number` at flush/commit time (caught by the generic
handler, which rolls the session back); `internalError` is any other
exception reaching that handler (e.g. `Item.query.get` returning None). -/
inductive Err where
  | notFound
  | itemNotAvailable
  | selfPurchase
  | paymentAlreadyProcessed
  | cannotShip
  | notShipped
  | notDelivered
  | cannotCancel
  | uniqueViolation
  | internalError
  deriving DecidableEq

/-- Request body of POST /orders. `item_id` and `shipping_address_id` are
required fields; `shipping_cost` is `data.get('shipping_cost', 15.00)`. -/
structure CreateOrderData where
  item_id : Nat
  shipping_address_id : Nat
  shipping_cost : Option ℚ
  deriving DecidableEq

/-- Line 44 of src/src/routes/transaction.py:
`buyer_protection_fee = item_price * Decimal('0.05') + Decimal('2.50')`. -/
def buyer_protection_fee_of (item_price : ℚ) : ℚ :=
  item_price * (5 / 100) + 5 / 2

/-- `create_order` (src/src/routes/transaction.py lines 16-78). -/
def createOrder (current_user : Nat) (data : CreateOrderData) (oid now : Nat)
    (s : DBState) : Except Err DBState :=
  match s.items.find? (fun it => it.id == data.item_id) with
  | none => .error .notFound
  | some item =>
    if item.status ≠ "available" then .error .itemNotAvailable
    else if item.seller_id == current_user then .error .selfPurchase
    else
      match s.addresses.find?
          (fun a => a.id == data.shipping_address_id && a.user_id == current_user) with
      | none => .error .notFound
      | some addr =>
        let item_price := item.price
        let shipping_cost := data.shipping_cost.getD 15
        let bpf := buyer_protection_fee_of item_price
        let order : Order :=
          { id := oid
            buyer_id := current_user
            seller_id := item.seller_id
            item_id := item.id
            shipping_address_id := addr.id
            item_price := item_price
            shipping_cost := shipping_cost
            buyer_protection_fee := bpf
            total_price := item_price + shipping_cost + bpf
            currency := item.currency
            order_status := "pending"
            payment_status := "pending"
            updated_at := now
            shipped_at := none
            delivered_at := none
            completed_at := none }
        .ok { s with
              orders := s.orders ++ [order]
              items := s.items.map (fun it =>
                if it.id = data.item_id
                then { it with status := "reserved", updated_at := now }
                else it) }

/-- Request body of POST /orders/&lt;id&gt;/confirm-payment:
`payment_method = data.get('payment_method', 'cod')`. -/
structure ConfirmPaymentData where
  payment_method : Option String
  payment_gateway_id : Option String
  deriving DecidableEq

/-- `confirm_payment` (src/src/routes/transaction.py lines 145-188). -/
def confirmPayment (current_user order_id : Nat) (data : ConfirmPaymentData)
    (now : Nat) (s : DBState) : Except Err DBState :=
  match s.orders.find? (fun o => o.id == order_id && o.buyer_id == current_user) with
  | none => .error .notFound
  | some order =>
    if order.payment_status ≠ "pending" then .error .paymentAlreadyProcessed
    else
      let pm := data.payment_method.getD "cod"
      let txn : Transaction :=
        { order_id := order.id
          payment_gateway_id := data.payment_gateway_id
          amount := order.total_price
          currency := order.currency
          transaction_type := "payment"
          status := if pm = "cod" then "success" else "pending"
          payment_method := pm }
      .ok { s with
            transactions := s.transactions ++ [txn]
            orders := s.orders.map (fun o =>
              if o.id = order.id then
                if pm = "cod"
                then { o with payment_status := "paid", order_status := "confirmed",
                              updated_at := now }
                else { o with payment_status := "pending", order_status := "pending",
                              updated_at := now }
              else o) }

/-- Request body of POST /orders/&lt;id&gt;/ship:
`carrier = data.get('carrier', 'Aramex')`, optional tracking number and
label URL. -/
structure ShipOrderData where
  carrier : Option String
  tracking_number : Option String
  label_url : Option String
  deriving DecidableEq

/-- Whether the supplied tracking number collides with an existing
`shipments` row (the UNIQUE constraint admits multiple NULLs). -/
def trackingTaken (shipments : List Shipment) (tn : Option String) : Bool :=
  match tn with
  | none => false
  | some t => shipments.any (fun sh => sh.tracking_number == some t)

/-- `ship_order` (src/src/routes/transaction.py lines 193-236).  The status
gate on line 198 is `order.order_status not in ['confirmed', 'paid']` — it
tests `order_status` against the literal `'paid'`, a `payment_status` value;
`payment_status` itself is never consulted.  A duplicate tracking number
violates the UNIQUE constraint when the pending Shipment insert is flushed,
raising IntegrityError, which the handler turns into a rollback. -/
def shipOrder (current_user order_id : Nat) (data : ShipOrderData) (now : Nat)
    (s : DBState) : Except Err DBState :=
  match s.orders.find? (fun o => o.id == order_id && o.seller_id == current_user) with
  | none => .error .notFound
  | some order =>
    if ¬ (order.order_status = "confirmed" ∨ order.order_status = "paid") then
      .error .cannotShip
    else if trackingTaken s.shipments data.tracking_number then
      .error .uniqueViolation
    else
      match s.items.find? (fun it => it.id == order.item_id) with
      | none => .error .internalError
      | some _ =>
        let shipment : Shipment :=
          { order_id := order.id
            carrier := data.carrier.getD "Aramex"
            tracking_number := data.tracking_number
            shipping_cost := order.shipping_cost
            currency := order.currency
            status := "picked_up"
            label_url := data.label_url
            actual_delivery := none
            updated_at := now }
        .ok { s with
              shipments := s.shipments ++ [shipment]
              orders := s.orders.map (fun o =>
                if o.id = order.id
                then { o with order_status := "shipped", shipped_at := some now,
                              updated_at := now }
                else o)
              items := s.items.map (fun it =>
                if it.id = order.item_id
                then { it with status := "sold", updated_at := now }
                else it) }

/-- `Shipment.query.filter_by(order_id=..).first()` followed by the in-place
mutation in `confirm_delivery`: only the first matching row is touched;
when no row matches, the list is unchanged. -/
def updateFirstShipment (l : List Shipment) (oid now : Nat) : List Shipment :=
  match l with
  | [] => []
  | sh :: rest =>
    if sh.order_id = oid
    then { sh with status := "delivered", actual_delivery := some now,
                   updated_at := now } :: rest
    else sh :: updateFirstShipment rest oid now

/-- `confirm_delivery` (src/src/routes/transaction.py lines 241-270). -/
def confirmDelivery (current_user order_id now : Nat) (s : DBState) :
    Except Err DBState :=
  match s.orders.find? (fun o => o.id == order_id && o.buyer_id == current_user) with
  | none => .error .notFound
  | some order =>
    if order.order_status ≠ "shipped" then .error .notShipped
    else
      .ok { s with
            orders := s.orders.map (fun o =>
              if o.id = order.id
              then { o with order_status := "delivered", delivered_at := some now,
                            updated_at := now }
              else o)
            shipments := updateFirstShipment s.shipments order.id now }

/-- `complete_order` (src/src/routes/transaction.py lines 275-311). -/
def completeOrder (current_user order_id now : Nat) (s : DBState) :
    Except Err DBState :=
  match s.orders.find? (fun o => o.id == order_id && o.buyer_id == current_user) with
  | none => .error .notFound
  | some order =>
    if order.order_status ≠ "delivered" then .error .notDelivered
    else
      let payout : Transaction :=
        { order_id := order.id
          payment_gateway_id := none
          amount := order.item_price + order.shipping_cost
          currency := order.currency
          transaction_type := "payout"
          status := "success"
          payment_method := "wallet" }
      .ok { s with
            transactions := s.transactions ++ [payout]
            orders := s.orders.map (fun o =>
              if o.id = order.id
              then { o with order_status := "completed", completed_at := some now,
                            updated_at := now }
              else o) }

/-- `order.transactions` is the relationship of all Transaction rows whose
`order_id` is this order's id, in insertion order; `cancel_order` reads its
first element. -/
def firstOrderTransaction (transactions : List Transaction) (oid : Nat) :
    Option Transaction :=
  (transactions.filter (fun t => t.order_id == oid)).head?

/-- `cancel_order` (src/src/routes/transaction.py lines 316-362). -/
def cancelOrder (current_user order_id now : Nat) (s : DBState) :
    Except Err DBState :=
  match s.orders.find? (fun o =>
      o.id == order_id && (o.buyer_id == current_user || o.seller_id == current_user)) with
  | none => .error .notFound
  | some order =>
    if ¬ (order.order_status = "pending" ∨ order.order_status = "confirmed") then
      .error .cannotCancel
    else
      match s.items.find? (fun it => it.id == order.item_id) with
      | none => .error .internalError
      | some _ =>
        let cancelled := { s with
          orders := s.orders.map (fun o =>
            if o.id = order.id
            then { o with order_status := "cancelled", updated_at := now }
            else o)
          items := s.items.map (fun it =>
            if it.id = order.item_id
            then { it with status := "available", updated_at := now }
            else it) }
        if order.payment_status = "paid" then
          let pm := match firstOrderTransaction s.transactions order.id with
                    | some t => t.payment_method
                    | none => "cod"
          let refund : Transaction :=
            { order_id := order.id
              payment_gateway_id := none
              amount := order.total_price
              currency := order.currency
              transaction_type := "refund"
              status := "success"
              payment_method := pm }
          .ok { cancelled with
                transactions := cancelled.transactions ++ [refund]
                orders := cancelled.orders.map (fun o =>
                  if o.id = order.id then { o with payment_status := "refunded" } else o) }
        else .ok cancelled

/-- Request body of PUT /items/&lt;id&gt;: `allowed_fields` of `update_item`
(src/src/routes/item.py lines 176-177); a `some` value models the key being
present in the JSON body.  `status` is among the allowed fields. -/
structure UpdateItemData where
  title : Option String
  description : Option String
  price : Option ℚ
  category : Option String
  subcategory : Option String
  condition : Option String
  brand : Option String
  size : Option String
  color : Option String
  material : Option String
  status : Option String
  deriving DecidableEq

/-- The `setattr` loop of `update_item`: each allowed field present in the
body overwrites the column. -/
def applyItemUpdate (d : UpdateItemData) (now : Nat) (it : Item) : Item :=
  { it with
    title := d.title.getD it.title
    description := d.description.getD it.description
    price := d.price.getD it.price
    category := d.category.getD it.category
    subcategory := d.subcategory.getD it.subcategory
    condition := d.condition.getD it.condition
    brand := d.brand.getD it.brand
    size := d.size.getD it.size
    color := d.color.getD it.color
    material := d.material.getD it.material
    status := d.status.getD it.status
    updated_at := now }

/-- `update_item` (src/src/routes/item.py lines 169-192). -/
def updateItem (current_user item_id : Nat) (d : UpdateItemData) (now : Nat)
    (s : DBState) : Except Err DBState :=
  match s.items.find? (fun it => it.id == item_id && it.seller_id == current_user) with
  | none => .error .notFound
  | some _ =>
    .ok { s with
          items := s.items.map (fun it =>
            if it.id = item_id ∧ it.seller_id = current_user
            then applyItemUpdate d now it
            else it) }

/-- `delete_item` (src/src/routes/item.py lines 197-211): soft delete via
the status column. -/
def deleteItem (current_user item_id now : Nat) (s : DBState) :
    Except Err DBState :=
  match s.items.find? (fun it => it.id == item_id && it.seller_id == current_user) with
  | none => .error .notFound
  | some _ =>
    .ok { s with
          items := s.items.map (fun it =>
            if it.id = item_id ∧ it.seller_id = current_user
            then { it with status := "deleted", updated_at := now }
            else it) }

/-- One successful API call against the store: the transition relation of
the Order Ledger state machine (plus the generic item mutations). -/
inductive Step : DBState → DBState → Prop where
  | create (u : Nat) (d : CreateOrderData) (oid now : Nat) {s s' : DBState} :
      createOrder u d oid now s = .ok s' → Step s s'
  | confirmPay (u oid : Nat) (d : ConfirmPaymentData) (now : Nat) {s s' : DBState} :
      confirmPayment u oid d now s = .ok s' → Step s s'
  | ship (u oid : Nat) (d : ShipOrderData) (now : Nat) {s s' : DBState} :
      shipOrder u oid d now s = .ok s' → Step s s'
  | deliver (u oid now : Nat) {s s' : DBState} :
      confirmDelivery u oid now s = .ok s' → Step s s'
  | complete (u oid now : Nat) {s s' : DBState} :
      completeOrder u oid now s = .ok s' → Step s s'
  | cancel (u oid now : Nat) {s s' : DBState} :
      cancelOrder u oid now s = .ok s' → Step s s'
  | itemUpdate (u iid : Nat) (d : UpdateItemData) (now : Nat) {s s' : DBState} :
      updateItem u iid d now s = .ok s' → Step s s'
  | itemDelete (u iid now : Nat) {s s' : DBState} :
      deleteItem u iid now s = .ok s' → Step s s'

/-- The pricing equation of one Order row. -/
def MoneyEq (o : Order) : Prop :=
  o.total_price = o.item_price + o.shipping_cost + o.buyer_protection_fee

/-- Spec §8: for all Orders, total = item + shipping + buyer-protection fee. -/
def MoneyInv (s : DBState) : Prop := ∀ o ∈ s.orders, MoneyEq o

/-- `o'` is the same order row as `o` with all four monetary columns intact. -/
def SameMoney (o o' : Order) : Prop :=
  o'.id = o.id ∧ o'.item_price = o.item_price ∧ o'.shipping_cost = o.shipping_cost ∧
  o'.buyer_protection_fee = o.buyer_protection_fee ∧ o'.total_price = o.total_price

/-! Concrete fixtures used to evaluate the operations on closed inputs. -/

/-- An available listing priced 10.01 AED, sold by user 5. -/
def exItem : Item :=
  { id := 1, seller_id := 5, title := "Vintage bag", description := "",
    price := 1001 / 100, currency := "AED", category := "bags", subcategory := "",
    condition := "Good", brand := "", size := "", color := "", material := "",
    status := "available", updated_at := 0 }

/-- A shipping address owned by user 1. -/
def exAddr : Address := { id := 2, user_id := 1 }

/-- Store with one available item and one address, no orders yet. -/
def exState0 : DBState :=
  { items := [exItem], addresses := [exAddr], orders := [], transactions := [],
    shipments := [] }

/-- Body of a POST /orders for the listing above, default shipping cost. -/
def exCreateData : CreateOrderData :=
  { item_id := 1, shipping_address_id := 2, shipping_cost := none }

/-- The Order row `create_order` builds from `exState0` and `exCreateData`. -/
def exOrderNew : Order :=
  { id := 100, buyer_id := 1, seller_id := 5, item_id := 1, shipping_address_id := 2,
    item_price := 1001 / 100, shipping_cost := 15,
    buyer_protection_fee := buyer_protection_fee_of (1001 / 100),
    total_price := 1001 / 100 + 15 + buyer_protection_fee_of (1001 / 100),
    currency := "AED", order_status := "pending", payment_status := "pending",
    updated_at := 0, shipped_at := none, delivered_at := none, completed_at := none }

/-- The store after that successful Create Order call. -/
def exState1 : DBState :=
  { items := [{ exItem with status := "reserved", updated_at := 0 }],
    addresses := [exAddr], orders := [exOrderNew], transactions := [], shipments := [] }

/-- An order on the listing, still `pending`, already `paid` (e.g. a gateway
payment confirmed out of band). -/
def exOrderPend : Order :=
  { id := 7, buyer_id := 1, seller_id := 5, item_id := 1, shipping_address_id := 2,
    item_price := 100, shipping_cost := 15, buyer_protection_fee := 15 / 2,
    total_price := 245 / 2, currency := "AED", order_status := "pending",
    payment_status := "paid", updated_at := 0, shipped_at := none,
    delivered_at := none, completed_at := none }

/-- The payment Transaction recorded for `exOrderPend`, paid by card. -/
def exPaymentTxn : Transaction :=
  { order_id := 7, payment_gateway_id := none, amount := 245 / 2, currency := "AED",
    transaction_type := "payment", status := "success", payment_method := "card" }

/-- Store with the reserved item, the pending-but-paid order and its payment
transaction. -/
def exCancelState : DBState :=
  { items := [{ exItem with status := "reserved" }], addresses := [exAddr],
    orders := [exOrderPend], transactions := [exPaymentTxn], shipments := [] }

/-- Body of a POST /orders/7/ship carrying tracking number TN1. -/
def exShipData : ShipOrderData :=
  { carrier := none, tracking_number := some "TN1", label_url := none }

/-- `exOrderPend` after its seller-side confirmation. -/
def exOrderConfirmed : Order := { exOrderPend with order_status := "confirmed" }

/-- A shipment of some other order already using tracking number TN1. -/
def exShipment : Shipment :=
  { order_id := 9, carrier := "Aramex", tracking_number := some "TN1",
    shipping_cost := 15, currency := "AED", status := "picked_up", label_url := none,
    actual_delivery := none, updated_at := 0 }

/-- Store in which order 7 is confirmed and tracking number TN1 is taken. -/
def exShipState : DBState :=
  { exCancelState with orders := [exOrderConfirmed], shipments := [exShipment] }

/-- `exOrderPend` in `shipped` status. -/
def exOrderShipped : Order := { exOrderPend with order_status := "shipped" }

/-- Store with a shipped order and no Shipment row at all. -/
def exDeliverState : DBState := { exCancelState with orders := [exOrderShipped] }

/-- `exOrderPend` in `delivered` status. -/
def exOrderDelivered : Order := { exOrderPend with order_status := "delivered" }

/-- Store with a delivered order, ready for completion. -/
def exCompleteState : DBState := { exCancelState with orders := [exOrderDelivered] }

/-- Body of a PUT /items/1 that only sets the status column. -/
def exUpdateData : UpdateItemData :=
  { title := none, description := none, price := none, category := none,
    subcategory := none, condition := none, brand := none, size := none,
    color := none, material := none, status := some "available" }

theorem sameMoney_refl (o : Order) : SameMoney o o := ⟨rfl, rfl, rfl, rfl, rfl⟩

theorem sameMoney_trans {a b c : Order} (h1 : SameMoney a b) (h2 : SameMoney b c) :
    SameMoney a c := by
  obtain ⟨i1, p1, s1, b1, t1⟩ := h1
  obtain ⟨i2, p2, s2, b2, t2⟩ := h2
  exact ⟨i2.trans i1, p2.trans p1, s2.trans s1, b2.trans b1, t2.trans t1⟩

theorem sameMoney_moneyEq {o o' : Order} (h : SameMoney o o') (hm : MoneyEq o) :
    MoneyEq o' := by
  obtain ⟨_, p, sc, b, t⟩ := h
  unfold MoneyEq at *
  rw [p, sc, b, t]
  exact hm

theorem map_sameMoney {g : Order → Order} (hg : ∀ o, SameMoney o (g o)) (l : List Order) :
    (∀ o ∈ l, ∃ o' ∈ l.map g, SameMoney o o') ∧
    ((∀ o ∈ l, MoneyEq o) → ∀ o' ∈ l.map g, MoneyEq o') := by
  constructor
  · intro o ho
    exact ⟨g o, List.mem_map_of_mem g ho, hg o⟩
  · intro hm o' ho'
    obtain ⟨o, ho, rfl⟩ := List.mem_map.mp ho'
    exact sameMoney_moneyEq (hg o) (hm o ho)

/-- Every successful operation keeps each existing Order row (with its four
monetary columns intact) and preserves the pricing invariant. -/
theorem step_money {s s' : DBState} (h : Step s s') :
    (∀ o ∈ s.orders, ∃ o' ∈ s'.orders, SameMoney o o') ∧ (MoneyInv s → MoneyInv s') := by
  cases h with
  | create u d oid now hok =>
    unfold createOrder at hok
    split at hok
    · exact Except.noConfusion hok
    next item hfind =>
      split at hok
      · exact Except.noConfusion hok
      split at hok
      · exact Except.noConfusion hok
      split at hok
      · exact Except.noConfusion hok
      next addr haddr =>
        simp only [Except.ok.injEq] at hok
        subst hok
        constructor
        · intro o ho
          exact ⟨o, List.mem_append_left _ ho, sameMoney_refl o⟩
        · intro hm o' ho'
          rcases List.mem_append.mp ho' with hmem | hmem
          · exact hm o' hmem
          · rcases List.mem_singleton.mp hmem with rfl
            rfl
  | confirmPay u oid d now hok =>
    unfold confirmPayment at hok
    split at hok
    · exact Except.noConfusion hok
    next order hfind =>
      split at hok
      · exact Except.noConfusion hok
      next hps =>
        simp only [Except.ok.injEq] at hok
        subst hok
        have hg : ∀ o : Order, SameMoney o
            (if o.id = order.id then
              if (d.payment_method.getD "cod") = "cod"
              then { o with payment_status := "paid", order_status := "confirmed",
                            updated_at := now }
              else { o with payment_status := "pending", order_status := "pending",
                            updated_at := now }
            else o) := by
          intro o
          split
          · split <;> exact ⟨rfl, rfl, rfl, rfl, rfl⟩
          · exact sameMoney_refl o
        exact map_sameMoney hg s.orders
  | ship u oid d now hok =>
    unfold shipOrder at hok
    split at hok
    · exact Except.noConfusion hok
    next order hfind =>
      split at hok
      · exact Except.noConfusion hok
      split at hok
      · exact Except.noConfusion hok
      split at hok
      · exact Except.noConfusion hok
      simp only [Except.ok.injEq] at hok
      subst hok
      have hg : ∀ o : Order, SameMoney o
          (if o.id = order.id
           then { o with order_status := "shipped", shipped_at := some now,
                         updated_at := now }
           else o) := by
        intro o
        split
        · exact ⟨rfl, rfl, rfl, rfl, rfl⟩
        · exact sameMoney_refl o
      exact map_sameMoney hg s.orders
  | deliver u oid now hok =>
    unfold confirmDelivery at hok
    split at hok
    · exact Except.noConfusion hok
    next order hfind =>
      split at hok
      · exact Except.noConfusion hok
      simp only [Except.ok.injEq] at hok
      subst hok
      have hg : ∀ o : Order, SameMoney o
          (if o.id = order.id
           then { o with order_status := "delivered", delivered_at := some now,
                         updated_at := now }
           else o) := by
        intro o
        split
        · exact ⟨rfl, rfl, rfl, rfl, rfl⟩
        · exact sameMoney_refl o
      exact map_sameMoney hg s.orders
  | complete u oid now hok =>
    unfold completeOrder at hok
    split at hok
    · exact Except.noConfusion hok
    next order hfind =>
      split at hok
      · exact Except.noConfusion hok
      simp only [Except.ok.injEq] at hok
      subst hok
      have hg : ∀ o : Order, SameMoney o
          (if o.id = order.id
           then { o with order_status := "completed", completed_at := some now,
                         updated_at := now }
           else o) := by
        intro o
        split
        · exact ⟨rfl, rfl, rfl, rfl, rfl⟩
        · exact sameMoney_refl o
      exact map_sameMoney hg s.orders
  | cancel u oid now hok =>
    unfold cancelOrder at hok
    split at hok
    · exact Except.noConfusion hok
    next order hfind =>
      split at hok
      · exact Except.noConfusion hok
      split at hok
      · exact Except.noConfusion hok
      have hg : ∀ o : Order, SameMoney o
          (if o.id = order.id
           then { o with order_status := "cancelled", updated_at := now }
           else o) := by
        intro o
        split
        · exact ⟨rfl, rfl, rfl, rfl, rfl⟩
        · exact sameMoney_refl o
      split at hok
      · -- payment_status = "paid": refund appended and a second map over orders
        simp only [Except.ok.injEq] at hok
        subst hok
        have hh : ∀ o : Order, SameMoney o
            (if o.id = order.id then { o with payment_status := "refunded" } else o) := by
          intro o
          split
          · exact ⟨rfl, rfl, rfl, rfl, rfl⟩
          · exact sameMoney_refl o
        constructor
        · intro o ho
          obtain ⟨o1, ho1, h1⟩ := (map_sameMoney hg s.orders).1 o ho
          obtain ⟨o2, ho2, h2⟩ := (map_sameMoney hh (s.orders.map _)).1 o1 ho1
          exact ⟨o2, ho2, sameMoney_trans h1 h2⟩
        · intro hm
          exact (map_sameMoney hh (s.orders.map _)).2 ((map_sameMoney hg s.orders).2 hm)
      · simp only [Except.ok.injEq] at hok
        subst hok
        exact map_sameMoney hg s.orders
  | itemUpdate u iid d now hok =>
    unfold updateItem at hok
    split at hok
    · exact Except.noConfusion hok
    simp only [Except.ok.injEq] at hok
    subst hok
    exact ⟨fun o ho => ⟨o, ho, sameMoney_refl o⟩, fun hm => hm⟩
  | itemDelete u iid now hok =>
    unfold deleteItem at hok
    split at hok
    · exact Except.noConfusion hok
    simp only [Except.ok.injEq] at hok
    subst hok
    exact ⟨fun o ho => ⟨o, ho, sameMoney_refl o⟩, fun hm => hm⟩

theorem mem_map_key_prop {α : Type} (key : α → Nat) (k : Nat) (upd : α → α)
    (P : α → Prop) (hP : ∀ a, P (upd a)) (l : List α) :
    ∀ b ∈ l.map (fun a => if key a = k then upd a else a), key b = k → P b := by
  intro b hb hk
  obtain ⟨a, ha, rfl⟩ := List.mem_map.mp hb
  by_cases h : key a = k
  · rw [if_pos h] at hk ⊢
    exact hP a
  · rw [if_neg h] at hk
    exact absurd hk h

theorem map_key_prop_pres {α : Type} (f : α → α) (key : α → Nat) (k : Nat)
    (P : α → Prop) (hpres : ∀ a, (P a → P (f a)) ∧ key (f a) = key a) (l : List α)
    (h : ∀ a ∈ l, key a = k → P a) :
    ∀ b ∈ l.map f, key b = k → P b := by
  intro b hb hk
  obtain ⟨a, ha, rfl⟩ := List.mem_map.mp hb
  obtain ⟨hPf, hkf⟩ := hpres a
  rw [hkf] at hk
  exact hPf (h a ha hk)

/-- **C1.** For every Order, `total_price = item_price + shipping_cost +
buyer_protection_fee` holds when the Order is created, and no lifecycle
operation (confirm payment, ship, confirm delivery, complete, cancel — nor
the generic item paths) ever changes any of the four monetary columns of an
existing Order: the pricing equation holds in every reachable state. -/
theorem order_total_price_invariant (s s' : DBState) (hinv : MoneyInv s)
    (hreach : Relation.ReflTransGen Step s s') :
    MoneyInv s' ∧ ∀ o ∈ s.orders, ∃ o' ∈ s'.orders, SameMoney o o' := by
  induction hreach with
  | refl => exact ⟨hinv, fun o ho => ⟨o, ho, sameMoney_refl o⟩⟩
  | tail _ hbc ih =>
    obtain ⟨hinvb, hframe⟩ := ih
    obtain ⟨hframe2, hpres⟩ := step_money hbc
    refine ⟨hpres hinvb, fun o ho => ?_⟩
    obtain ⟨o1, ho1, h1⟩ := hframe o ho
    obtain ⟨o2, ho2, h2⟩ := hframe2 o1 ho1
    exact ⟨o2, ho2, sameMoney_trans h1 h2⟩

/-- Witness for C1: a concrete Create Order step from `exState0`. -/
theorem order_total_price_invariant_witness :
    MoneyInv exState0 ∧
      (MoneyInv exState1 ∧
        ∀ o ∈ exState0.orders, ∃ o' ∈ exState1.orders, SameMoney o o') := by
  have h0 : MoneyInv exState0 := by
    intro o ho
    simp [exState0] at ho
  have hstep : Step exState0 exState1 := Step.create 1 exCreateData 100 0 rfl
  exact ⟨h0, order_total_price_invariant exState0 exState1 h0
    (Relation.ReflTransGen.single hstep)⟩

/-- **C2.** Cancelling an Order found for the caller: the precondition is
`order_status ∈ {pending, confirmed}` (otherwise the call errors).  On
success the order's status becomes `cancelled` and the item is released to
`available`; if `payment_status = paid`, exactly one new Transaction of type
`refund` for `total_price` is appended, paying back via the method of the
order's first Transaction (`cod` if it has none), and `payment_status`
becomes `refunded`; otherwise no Transaction is inserted and no
`payment_status` changes. -/
theorem cancel_order_spec (u oid now : Nat) (s : DBState) (order : Order)
    (hfind : s.orders.find? (fun o =>
        o.id == oid && (o.buyer_id == u || o.seller_id == u)) = some order)
    (hitem : (s.items.find? (fun it => it.id == order.item_id)).isSome) :
    (¬ (order.order_status = "pending" ∨ order.order_status = "confirmed") →
       cancelOrder u oid now s = .error .cannotCancel) ∧
    ((order.order_status = "pending" ∨ order.order_status = "confirmed") →
      ∃ s', cancelOrder u oid now s = .ok s' ∧
        (order.payment_status = "paid" →
          s'.transactions = s.transactions ++
            [{ order_id := order.id, payment_gateway_id := none,
               amount := order.total_price, currency := order.currency,
               transaction_type := "refund", status := "success",
               payment_method :=
                 match firstOrderTransaction s.transactions order.id with
                 | some t => t.payment_method
                 | none => "cod" }] ∧
          ∀ o' ∈ s'.orders, o'.id = order.id → o'.payment_status = "refunded") ∧
        (order.payment_status ≠ "paid" →
          s'.transactions = s.transactions ∧
          s'.orders.map Order.payment_status = s.orders.map Order.payment_status) ∧
        (∀ o' ∈ s'.orders, o'.id = order.id → o'.order_status = "cancelled") ∧
        (∀ it ∈ s'.items, it.id = order.item_id → it.status = "available")) := by
  obtain ⟨item0, hitem0⟩ := Option.isSome_iff_exists.mp hitem
  constructor
  · intro hbad
    unfold cancelOrder
    split
    next hnone => rw [hfind] at hnone; cases hnone
    next order' hsome =>
      rw [hfind] at hsome
      injection hsome with h
      subst h
      rw [if_pos hbad]
  · intro hgood
    unfold cancelOrder
    split
    next hnone => rw [hfind] at hnone; cases hnone
    next order' hsome =>
      rw [hfind] at hsome
      injection hsome with h
      subst h
      rw [if_neg (not_not_intro hgood)]
      split
      next hnone => rw [hitem0] at hnone; cases hnone
      next item' hsome' =>
        have hcancel : ∀ o' ∈ s.orders.map (fun o =>
            if o.id = order.id
            then { o with order_status := "cancelled", updated_at := now }
            else o), o'.id = order.id → o'.order_status = "cancelled" :=
          mem_map_key_prop Order.id order.id
            (fun o => { o with order_status := "cancelled", updated_at := now })
            (fun o' => o'.order_status = "cancelled") (fun _ => rfl) s.orders
        have havail : ∀ it ∈ s.items.map (fun it =>
            if it.id = order.item_id
            then { it with status := "available", updated_at := now }
            else it), it.id = order.item_id → it.status = "available" :=
          mem_map_key_prop Item.id order.item_id
            (fun it => { it with status := "available", updated_at := now })
            (fun it => it.status = "available") (fun _ => rfl) s.items
        by_cases hpaid : order.payment_status = "paid"
        · rw [if_pos hpaid]
          refine ⟨_, rfl, fun _ => ⟨rfl, ?_⟩, fun hnp => absurd hpaid hnp, ?_, havail⟩
          · exact mem_map_key_prop Order.id order.id
              (fun o => { o with payment_status := "refunded" })
              (fun o' => o'.payment_status = "refunded") (fun _ => rfl) _
          · refine map_key_prop_pres _ Order.id order.id _ (fun a => ⟨?_, ?_⟩) _ hcancel
            · intro hP
              by_cases h : a.id = order.id <;> simp [h, hP]
            · by_cases h : a.id = order.id <;> simp [h]
        · rw [if_neg hpaid]
          refine ⟨_, rfl, fun hp => absurd hp hpaid, fun _ => ⟨rfl, ?_⟩, hcancel, havail⟩
          rw [List.map_map]
          refine List.map_congr_left ?_
          intro o _
          by_cases h : o.id = order.id <;> simp [Function.comp, h]

/-- Witness for C2: cancelling the pending-but-paid order 7 in
`exCancelState`. -/
theorem cancel_order_spec_witness :
    (exCancelState.orders.find? (fun o =>
        o.id == 7 && (o.buyer_id == 1 || o.seller_id == 1)) = some exOrderPend) ∧
    (exOrderPend.order_status = "pending" ∨ exOrderPend.order_status = "confirmed") ∧
    ∃ s', cancelOrder 1 7 4 exCancelState = .ok s' ∧
      (exOrderPend.payment_status = "paid" →
        s'.transactions = exCancelState.transactions ++
          [{ order_id := exOrderPend.id, payment_gateway_id := none,
             amount := exOrderPend.total_price, currency := exOrderPend.currency,
             transaction_type := "refund", status := "success",
             payment_method :=
               match firstOrderTransaction exCancelState.transactions exOrderPend.id with
               | some t => t.payment_method
               | none => "cod" }] ∧
        ∀ o' ∈ s'.orders, o'.id = exOrderPend.id → o'.payment_status = "refunded") ∧
      (exOrderPend.payment_status ≠ "paid" →
        s'.transactions = exCancelState.transactions ∧
        s'.orders.map Order.payment_status =
          exCancelState.orders.map Order.payment_status) ∧
      (∀ o' ∈ s'.orders, o'.id = exOrderPend.id → o'.order_status = "cancelled") ∧
      (∀ it ∈ s'.items, it.id = exOrderPend.item_id → it.status = "available") := by
  have hfind : exCancelState.orders.find? (fun o =>
      o.id == 7 && (o.buyer_id == 1 || o.seller_id == 1)) = some exOrderPend := rfl
  have hitem : (exCancelState.items.find?
      (fun it => it.id == exOrderPend.item_id)).isSome := rfl
  have hpre : exOrderPend.order_status = "pending" ∨
      exOrderPend.order_status = "confirmed" := Or.inl rfl
  exact ⟨hfind, hpre, (cancel_order_spec 1 7 4 exCancelState exOrderPend hfind hitem).2 hpre⟩

/-- **C3 counterexample.** Order 7 has `order_status = "pending"` and
`payment_status = "paid"`, yet the seller's Ship Order call is rejected with
the cannot-ship error: the gate never consults `payment_status`. -/
theorem ship_order_paid_but_rejected :
    exOrderPend.order_status = "pending" ∧ exOrderPend.payment_status = "paid" ∧
    exCancelState.orders.find? (fun o => o.id == 7 && o.seller_id == 5) =
      some exOrderPend ∧
    shipOrder 5 7 exShipData 3 exCancelState = .error .cannotShip :=
  ⟨rfl, rfl, rfl, rfl⟩

/-- **C3 (amended).** For the Order found for the requesting seller, the Ship
Order status gate rejects exactly when `order_status` is neither the literal
`"confirmed"` nor the literal `"paid"` — a test of `order_status` alone
(`"paid"` belongs to the `payment_status` enum and is never assigned to
`order_status`); `payment_status` is not consulted, so an Order that is paid
but not confirmed is rejected. -/
theorem ship_order_status_gate (u oid : Nat) (d : ShipOrderData) (now : Nat)
    (s : DBState) (order : Order)
    (hfind : s.orders.find? (fun o => o.id == oid && o.seller_id == u) = some order) :
    shipOrder u oid d now s = .error .cannotShip ↔
      ¬ (order.order_status = "confirmed" ∨ order.order_status = "paid") := by
  unfold shipOrder
  split
  next hnone => rw [hfind] at hnone; cases hnone
  next order' hsome =>
    rw [hfind] at hsome
    injection hsome with h
    subst h
    constructor
    · intro hres hc
      rw [if_neg (not_not_intro hc)] at hres
      split at hres
      · exact absurd hres (by simp)
      · split at hres
        · exact absurd hres (by simp)
        · exact absurd hres (by simp)
    · intro hbad
      rw [if_pos hbad]

/-- Witness for the amended C3: the pending-but-paid order 7, whose Ship call
errors, satisfies the gate equivalence. -/
theorem ship_order_status_gate_witness :
    (exCancelState.orders.find? (fun o => o.id == 7 && o.seller_id == 5) =
      some exOrderPend) ∧
    (shipOrder 5 7 exShipData 3 exCancelState = .error .cannotShip ↔
      ¬ (exOrderPend.order_status = "confirmed" ∨
         exOrderPend.order_status = "paid")) :=
  ⟨rfl, ship_order_status_gate 5 7 exShipData 3 exCancelState exOrderPend rfl⟩

/-- **C4 counterexample.** Creating an order for the 10.01 AED listing stores
`buyer_protection_fee = 10.01 * 0.05 + 2.50 = 3.0005`, which is not an
integer number of hundredths: no rounding to 2 decimal places happens. -/
theorem bpf_not_two_decimals :
    buyer_protection_fee_of (1001 / 100) = 6001 / 2000 ∧
    (∃ s', createOrder 1 exCreateData 100 0 exState0 = .ok s' ∧
      ∃ o ∈ s'.orders, o.buyer_protection_fee = buyer_protection_fee_of (1001 / 100)) ∧
    ¬ ∃ n : ℤ, buyer_protection_fee_of (1001 / 100) = (n : ℚ) / 100 := by
  have h1 : buyer_protection_fee_of (1001 / 100) = 6001 / 2000 := by
    unfold buyer_protection_fee_of
    norm_num
  refine ⟨h1, ⟨exState1, rfl, exOrderNew, List.mem_singleton_self _, rfl⟩, ?_⟩
  rintro ⟨n, hn⟩
  rw [h1] at hn
  have h2 : (6001 : ℚ) * 100 = n * 2000 := by
    field_simp at hn
    linarith
  have h3 : (6001 : ℤ) * 100 = n * 2000 := by exact_mod_cast h2
  omega

/-- **C4 (amended).** The buyer-protection fee is computed exactly, with no
rounding step: for an item price of `k` hundredths the stored fee is
`(5k + 25000)` ten-thousandths — a value of up to 4 decimal digits, not
necessarily 2. -/
theorem bpf_exact_value (k : ℤ) :
    buyer_protection_fee_of ((k : ℚ) / 100) = ((5 * k + 25000 : ℤ) : ℚ) / 10000 := by
  unfold buyer_protection_fee_of
  push_cast
  ring

/-- **C5.** Creating an Order for an existing Item whose status is not
`available` always fails with the item-not-available conflict error (the
spec's `ConflictError`), and produces no new state: no Order row is
inserted and the Item — like all other rows — is unchanged. -/
theorem create_order_item_unavailable (u : Nat) (d : CreateOrderData) (oid now : Nat)
    (s : DBState) (item : Item)
    (hfind : s.items.find? (fun it => it.id == d.item_id) = some item)
    (hstatus : item.status ≠ "available") :
    createOrder u d oid now s = .error .itemNotAvailable ∧
    ∀ s', createOrder u d oid now s ≠ .ok s' := by
  have h : createOrder u d oid now s = .error .itemNotAvailable := by
    unfold createOrder
    split
    next hnone => rw [hfind] at hnone; cases hnone
    next item' hsome =>
      rw [hfind] at hsome
      injection hsome with hh
      subst hh
      rw [if_pos hstatus]
  refine ⟨h, fun s' hs' => ?_⟩
  rw [h] at hs'
  cases hs'

/-- Witness for C5: attempting to order the reserved item of
`exCancelState`. -/
theorem create_order_item_unavailable_witness :
    (exCancelState.items.find? (fun it => it.id == exCreateData.item_id) =
      some { exItem with status := "reserved" }) ∧
    ({ exItem with status := "reserved" } : Item).status ≠ "available" ∧
    (createOrder 1 exCreateData 101 0 exCancelState = .error .itemNotAvailable ∧
     ∀ s', createOrder 1 exCreateData 101 0 exCancelState ≠ .ok s') := by
  refine ⟨rfl, by decide, ?_⟩
  exact create_order_item_unavailable 1 exCreateData 101 0 exCancelState
    { exItem with status := "reserved" } rfl (by decide)

/-- **C6.** Every successful Create Order referenced an `available` Item,
reserves exactly that Item (by id) while mapping every other Item to itself
unchanged, and appends one Order with `order_status = pending` and
`payment_status = pending`. -/
theorem create_order_effects (u : Nat) (d : CreateOrderData) (oid now : Nat)
    (s s' : DBState) (hok : createOrder u d oid now s = .ok s') :
    (∃ item, s.items.find? (fun it => it.id == d.item_id) = some item ∧
       item.status = "available") ∧
    s'.items = s.items.map (fun it =>
      if it.id = d.item_id then { it with status := "reserved", updated_at := now }
      else it) ∧
    (∀ it ∈ s'.items, it.id = d.item_id → it.status = "reserved") ∧
    (∀ it ∈ s.items, it.id ≠ d.item_id → it ∈ s'.items) ∧
    ∃ o, s'.orders = s.orders ++ [o] ∧ o.order_status = "pending" ∧
      o.payment_status = "pending" ∧ o.item_id = d.item_id := by
  unfold createOrder at hok
  split at hok
  · exact Except.noConfusion hok
  next item hfind =>
    split at hok
    · exact Except.noConfusion hok
    next hstat =>
      split at hok
      · exact Except.noConfusion hok
      split at hok
      · exact Except.noConfusion hok
      next addr haddr =>
        simp only [Except.ok.injEq] at hok
        subst hok
        have hid : item.id = d.item_id := by
          have := List.find?_some hfind
          simpa using this
        refine ⟨⟨item, hfind, not_not.mp hstat⟩, rfl, ?_, ?_, ?_⟩
        · exact mem_map_key_prop Item.id d.item_id
            (fun it => { it with status := "reserved", updated_at := now })
            (fun it => it.status = "reserved") (fun _ => rfl) s.items
        · intro it hit hne
          exact List.mem_map.mpr ⟨it, hit, if_neg hne⟩
        · exact ⟨_, rfl, rfl, rfl, hid⟩

/-- Witness for C6: the concrete Create Order step out of `exState0`. -/
theorem create_order_effects_witness :
    ∃ s', createOrder 1 exCreateData 100 0 exState0 = .ok s' ∧
      ((∃ item, exState0.items.find? (fun it => it.id == exCreateData.item_id) =
          some item ∧ item.status = "available") ∧
       s'.items = exState0.items.map (fun it =>
         if it.id = exCreateData.item_id
         then { it with status := "reserved", updated_at := 0 }
         else it) ∧
       (∀ it ∈ s'.items, it.id = exCreateData.item_id → it.status = "reserved") ∧
       (∀ it ∈ exState0.items, it.id ≠ exCreateData.item_id → it ∈ s'.items) ∧
       ∃ o, s'.orders = exState0.orders ++ [o] ∧ o.order_status = "pending" ∧
         o.payment_status = "pending" ∧ o.item_id = exCreateData.item_id) :=
  ⟨exState1, rfl, create_order_effects 1 exCreateData 100 0 exState0 exState1 rfl⟩

/-- **C7.** Completing an Order requires `order_status = delivered`, appends
exactly one Transaction of type `payout`, status `success`, with amount
`item_price + shipping_cost`, sets the order's status to `completed` — and
under the pricing invariant that amount is strictly below `total_price`
whenever the buyer-protection fee is positive. -/
theorem complete_order_payout (u oid now : Nat) (s s' : DBState) (order : Order)
    (hfind : s.orders.find? (fun o => o.id == oid && o.buyer_id == u) = some order)
    (hok : completeOrder u oid now s = .ok s') :
    order.order_status = "delivered" ∧
    s'.transactions = s.transactions ++
      [{ order_id := order.id, payment_gateway_id := none,
         amount := order.item_price + order.shipping_cost,
         currency := order.currency, transaction_type := "payout",
         status := "success", payment_method := "wallet" }] ∧
    (∀ o' ∈ s'.orders, o'.id = order.id → o'.order_status = "completed") ∧
    (MoneyEq order → 0 < order.buyer_protection_fee →
      order.item_price + order.shipping_cost < order.total_price) := by
  unfold completeOrder at hok
  split at hok
  next hnone => rw [hfind] at hnone; cases hnone
  next order' hsome =>
    rw [hfind] at hsome
    injection hsome with h
    subst h
    split at hok
    · exact Except.noConfusion hok
    next hst =>
      simp only [Except.ok.injEq] at hok
      subst hok
      refine ⟨not_not.mp hst, rfl, ?_, ?_⟩
      · exact mem_map_key_prop Order.id order.id
          (fun o => { o with order_status := "completed", completed_at := some now,
                             updated_at := now })
          (fun o' => o'.order_status = "completed") (fun _ => rfl) s.orders
      · intro hmeq hbpf
        unfold MoneyEq at hmeq
        rw [hmeq]
        linarith

/-- Witness for C7: completing the delivered order 7 of `exCompleteState`. -/
theorem complete_order_payout_witness :
    (exCompleteState.orders.find? (fun o => o.id == 7 && o.buyer_id == 1) =
      some exOrderDelivered) ∧
    ∃ s', completeOrder 1 7 8 exCompleteState = .ok s' ∧
      (exOrderDelivered.order_status = "delivered" ∧
       s'.transactions = exCompleteState.transactions ++
         [{ order_id := exOrderDelivered.id, payment_gateway_id := none,
            amount := exOrderDelivered.item_price + exOrderDelivered.shipping_cost,
            currency := exOrderDelivered.currency, transaction_type := "payout",
            status := "success", payment_method := "wallet" }] ∧
       (∀ o' ∈ s'.orders, o'.id = exOrderDelivered.id →
         o'.order_status = "completed") ∧
       (MoneyEq exOrderDelivered → 0 < exOrderDelivered.buyer_protection_fee →
         exOrderDelivered.item_price + exOrderDelivered.shipping_cost <
           exOrderDelivered.total_price)) := by
  refine ⟨rfl, ⟨_, rfl, ?_⟩⟩
  exact complete_order_payout 1 7 8 exCompleteState _ exOrderDelivered rfl rfl

/-- **C8.** A Ship Order call whose supplied tracking number already belongs
to an existing Shipment can never succeed: no Shipment row is inserted and no
Order or Item is mutated; when the status gate passes, the failure is
specifically the unique-tracking-number violation (the spec's
`ConflictError`). -/
theorem ship_order_duplicate_tracking (u oid : Nat) (d : ShipOrderData) (now : Nat)
    (s : DBState) (order : Order) (t : String)
    (hfind : s.orders.find? (fun o => o.id == oid && o.seller_id == u) = some order)
    (htn : d.tracking_number = some t)
    (hdup : s.shipments.any (fun sh => sh.tracking_number == some t) = true) :
    (∀ s', shipOrder u oid d now s ≠ .ok s') ∧
    ((order.order_status = "confirmed" ∨ order.order_status = "paid") →
      shipOrder u oid d now s = .error .uniqueViolation) := by
  have htaken : trackingTaken s.shipments d.tracking_number = true := by
    rw [htn]
    exact hdup
  constructor
  · intro s' hok
    unfold shipOrder at hok
    split at hok
    next hnone => rw [hfind] at hnone; cases hnone
    next order' hsome =>
      rw [hfind] at hsome
      injection hsome with h
      subst h
      by_cases hgate : order.order_status = "confirmed" ∨ order.order_status = "paid"
      · rw [if_neg (not_not_intro hgate), htaken] at hok
        simp at hok
      · rw [if_pos hgate] at hok
        exact Except.noConfusion hok
  · intro hgate
    unfold shipOrder
    split
    next hnone => rw [hfind] at hnone; cases hnone
    next order' hsome =>
      rw [hfind] at hsome
      injection hsome with h
      subst h
      rw [if_neg (not_not_intro hgate)]
      simp [htaken]

/-- Witness for C8: shipping the confirmed order 7 with tracking number TN1,
already taken by `exShipment`. -/
theorem ship_order_duplicate_tracking_witness :
    (exShipState.orders.find? (fun o => o.id == 7 && o.seller_id == 5) =
      some exOrderConfirmed) ∧
    exShipData.tracking_number = some "TN1" ∧
    exShipState.shipments.any (fun sh => sh.tracking_number == some "TN1") = true ∧
    ((∀ s', shipOrder 5 7 exShipData 3 exShipState ≠ .ok s') ∧
     ((exOrderConfirmed.order_status = "confirmed" ∨
       exOrderConfirmed.order_status = "paid") →
       shipOrder 5 7 exShipData 3 exShipState = .error .uniqueViolation)) := by
  refine ⟨rfl, rfl, rfl, ?_⟩
  exact ship_order_duplicate_tracking 5 7 exShipData 3 exShipState
    exOrderConfirmed "TN1" rfl rfl rfl

/-- **C9 counterexample.** In `exCancelState` an Order references Item 1,
which is `reserved`; yet the generic PUT /items path run by its seller with a
body containing only `status` flips that Item's status straight to
`available` — the Order Ledger is not the exclusive writer of the status. -/
theorem update_item_sets_status_directly :
    (∃ o ∈ exCancelState.orders, o.item_id = 1) ∧
    (∀ it ∈ exCancelState.items, it.id = 1 → it.status = "reserved") ∧
    ∃ s', updateItem 5 1 exUpdateData 9 exCancelState = .ok s' ∧
      ∀ it ∈ s'.items, it.id = 1 → it.status = "available" := by
  refine ⟨⟨exOrderPend, List.mem_singleton_self _, rfl⟩, ?_, ⟨_, rfl, ?_⟩⟩
  · intro it hit _
    rcases List.mem_singleton.mp hit with rfl
    rfl
  · intro it hit _
    rcases List.mem_singleton.mp hit with rfl
    rfl

/-- **C9 (amended).** The generic update-item path does set the status of an
Item directly whenever the request body carries a `status` field — `status`
is among `allowed_fields` and no check for referencing Orders exists: after
the call the matching Item's status is the supplied value while the Orders
(and Transactions) tables are untouched, whatever Orders reference the
Item. -/
theorem update_item_status_override (u iid : Nat) (d : UpdateItemData) (now : Nat)
    (s : DBState) (item : Item) (st : String)
    (hfind : s.items.find? (fun it => it.id == iid && it.seller_id == u) = some item)
    (hst : d.status = some st) :
    ∃ s', updateItem u iid d now s = .ok s' ∧ s'.orders = s.orders ∧
      s'.transactions = s.transactions ∧
      ∀ it ∈ s'.items, it.id = iid → it.seller_id = u → it.status = st := by
  unfold updateItem
  split
  next hnone => rw [hfind] at hnone; cases hnone
  next item' hsome =>
    refine ⟨_, rfl, rfl, rfl, ?_⟩
    intro it hit hid hsell
    obtain ⟨a, ha, rfl⟩ := List.mem_map.mp hit
    by_cases h : a.id = iid ∧ a.seller_id = u
    · rw [if_pos h]
      show (applyItemUpdate d now a).status = st
      unfold applyItemUpdate
      simp [hst]
    · rw [if_neg h] at hid hsell
      exact absurd ⟨hid, hsell⟩ h

/-- Witness for the amended C9: the concrete status overwrite of Item 1. -/
theorem update_item_status_override_witness :
    (exCancelState.items.find? (fun it => it.id == 1 && it.seller_id == 5) =
      some { exItem with status := "reserved" }) ∧
    exUpdateData.status = some "available" ∧
    ∃ s', updateItem 5 1 exUpdateData 9 exCancelState = .ok s' ∧
      s'.orders = exCancelState.orders ∧
      s'.transactions = exCancelState.transactions ∧
      ∀ it ∈ s'.items, it.id = 1 → it.seller_id = 5 → it.status = "available" := by
  refine ⟨rfl, rfl, ?_⟩
  exact update_item_status_override 5 1 exUpdateData 9 exCancelState
    { exItem with status := "reserved" } "available" rfl rfl

theorem updateFirstShipment_eq_of_none (l : List Shipment) (oid now : Nat)
    (h : ∀ sh ∈ l, sh.order_id ≠ oid) : updateFirstShipment l oid now = l := by
  induction l with
  | nil => rfl
  | cons sh rest ih =>
    unfold updateFirstShipment
    rw [if_neg (h sh (List.mem_cons_self _ _)),
      ih (fun a ha => h a (List.mem_cons_of_mem _ ha))]

/-- **C10.** Confirming delivery of a shipped Order succeeds even when no
Shipment row references the Order: the order becomes `delivered` with
`delivered_at` set, and the (empty set of) Shipments — like the Items and
Transactions — is left untouched, with no error raised. -/
theorem confirm_delivery_without_shipment (u oid now : Nat) (s : DBState)
    (order : Order)
    (hfind : s.orders.find? (fun o => o.id == oid && o.buyer_id == u) = some order)
    (hst : order.order_status = "shipped")
    (hnosh : ∀ sh ∈ s.shipments, sh.order_id ≠ order.id) :
    ∃ s', confirmDelivery u oid now s = .ok s' ∧ s'.shipments = s.shipments ∧
      s'.transactions = s.transactions ∧ s'.items = s.items ∧
      ∀ o' ∈ s'.orders, o'.id = order.id →
        o'.order_status = "delivered" ∧ o'.delivered_at = some now := by
  unfold confirmDelivery
  split
  next hnone => rw [hfind] at hnone; cases hnone
  next order' hsome =>
    rw [hfind] at hsome
    injection hsome with h
    subst h
    rw [if_neg (not_not_intro hst)]
    refine ⟨_, rfl, ?_, rfl, rfl, ?_⟩
    · exact updateFirstShipment_eq_of_none s.shipments order.id now hnosh
    · exact mem_map_key_prop Order.id order.id
        (fun o => { o with order_status := "delivered", delivered_at := some now,
                           updated_at := now })
        (fun o' => o'.order_status = "delivered" ∧ o'.delivered_at = some now)
        (fun _ => ⟨rfl, rfl⟩) s.orders

/-- Witness for C10: delivery confirmation of order 7 in `exDeliverState`,
which has no Shipment rows at all. -/
theorem confirm_delivery_without_shipment_witness :
    (exDeliverState.orders.find? (fun o => o.id == 7 && o.buyer_id == 1) =
      some exOrderShipped) ∧
    exOrderShipped.order_status = "shipped" ∧
    ∃ s', confirmDelivery 1 7 8 exDeliverState = .ok s' ∧
      s'.shipments = exDeliverState.shipments ∧
      s'.transactions = exDeliverState.transactions ∧
      s'.items = exDeliverState.items ∧
      ∀ o' ∈ s'.orders, o'.id = exOrderShipped.id →
        o'.order_status = "delivered" ∧ o'.delivered_at = some 8 := by
  refine ⟨rfl, rfl, ?_⟩
  exact confirm_delivery_without_shipment 1 7 8 exDeliverState exOrderShipped rfl rfl
    (fun sh hsh => absurd hsh (List.not_mem_nil sh))

end Preloomi
